import Mathlib

/-!
Shallow embedding of `src/video/filter/vf_vavpp.c` (mpv VA-API video
post-processing filter) and proofs about its pipeline negotiation,
reference collection and per-unit render protocol.

External collaborators (libva hardware calls, the `mp_refqueue` frame
queue) are modelled as oracles: structures of values/functions whose
results stand for what the hardware / queue would answer.  All control
flow, state mutation and call ordering of the C file itself is
translated literally.
-/

namespace VfVavpp

/-- Sentinel `VA_INVALID_ID` from libva (`0xffffffff`). -/
def VA_INVALID_ID : Nat := 4294967295

/-- Picture-structure flag `VA_FRAME_PICTURE` (libva: `0x00000000`). -/
def VA_FRAME_PICTURE : Nat := 0

/-- Picture-structure flag `VA_TOP_FIELD` (libva: `0x00000001`). -/
def VA_TOP_FIELD : Nat := 1

/-- Picture-structure flag `VA_BOTTOM_FIELD` (libva: `0x00000002`). -/
def VA_BOTTOM_FIELD : Nat := 2

/-- Deinterlacing flag `VA_DEINTERLACING_BOTTOM_FIELD_FIRST` (libva: `0x0001`). -/
def VA_DEINTERLACING_BOTTOM_FIELD_FIRST : Nat := 1

/-- Deinterlacing flag `VA_DEINTERLACING_BOTTOM_FIELD` (libva: `0x0002`). -/
def VA_DEINTERLACING_BOTTOM_FIELD : Nat := 2

/-- libva `VAProcFilterDeinterlacing` enumerant (value 2 in `va_vpp.h`). -/
def VAProcFilterDeinterlacing : Nat := 2

/-- libva deinterlacing algorithm enumerants from `va_vpp.h`. -/
def VAProcDeinterlacingNone : Nat := 0

/-- libva `VAProcDeinterlacingBob`. -/
def VAProcDeinterlacingBob : Nat := 1

/-- libva `VAProcDeinterlacingWeave`. -/
def VAProcDeinterlacingWeave : Nat := 2

/-- libva `VAProcDeinterlacingMotionAdaptive`. -/
def VAProcDeinterlacingMotionAdaptive : Nat := 3

/-- libva `VAProcDeinterlacingMotionCompensated`. -/
def VAProcDeinterlacingMotionCompensated : Nat := 4

/-- The fixed table `deint_algorithm[]` mapping the `deint` suboption value
to the hardware algorithm enumerant (vf_vavpp.c lines 90-97). -/
def deint_algorithm : List Nat :=
  [VAProcDeinterlacingNone,
   VAProcDeinterlacingBob,  -- index 1: first-field, special-cased
   VAProcDeinterlacingBob,
   VAProcDeinterlacingWeave,
   VAProcDeinterlacingMotionAdaptive,
   VAProcDeinterlacingMotionCompensated]

/-- A frame sitting in the refqueue; only its hardware surface id matters
to this filter (`va_surface_id`). -/
structure Frame where
  surface : Nat
  deriving DecidableEq, Repr

/-- Model of `va_surface_id` applied to a possibly-absent `mp_image`. -/
def va_surface_id : Option Frame → Nat
  | none => VA_INVALID_ID
  | some f => f.surface

/-- Model of `struct surface_refs`: the populated surface list plus the
hardware-negotiated capacity.  `num_surfaces` is the list length. -/
structure SurfaceRefs where
  surfaces : List Nat
  max_surfaces : Nat
  deriving DecidableEq, Repr

/-- Model of `struct pipeline`.  `filters` is `none` when the C pointer is
NULL; `num_filters` is kept separately (it is a C `int`, and the source
stores it independently of the pointer). -/
structure Pipeline where
  filters : Option (List Nat)
  num_filters : Int
  num_input_colors : Nat
  num_output_colors : Nat
  forward : SurfaceRefs
  backward : SurfaceRefs
  deriving DecidableEq, Repr

/-- Model of `struct vf_priv_s` (the fields the verified operations touch).
`buffers` is the meaningful portion of the C `buffers`/`num_buffers` pair
(`num_buffers` = length).  `hw_pool` records whether the surface pool is
allocated; `paramsCsFlag` is the value of
`va_get_colorspace_flag(p->params.color.space)`. -/
structure Priv where
  deint_type : Nat
  interlaced_only : Bool
  reversal_bug : Bool
  do_deint : Bool
  buffers : List Nat
  config : Option Nat
  context : Option Nat
  paramsCsFlag : Nat
  pipe : Pipeline
  hw_pool : Bool
  deriving DecidableEq, Repr

/-- State of the frame-queue collaborator (`mp_refqueue`) as observed by
one render / output call: the frame visible at each signed temporal
offset, and the per-unit query results. -/
structure RefQueue where
  get : Int → Option Frame
  hasOutput : Bool
  shouldDeint : Bool
  isTopField : Bool
  topFieldFirst : Bool

/-- Loop body of `add_surfaces` (vf_vavpp.c lines 76-87): starting at loop
counter `n` with `fuel` iterations remaining, collect the surface ids the
loop would append.  Stops on a missing frame or the invalid sentinel. -/
def collectAux (q : Int → Option Frame) (dir : Int) : Nat → Nat → List Nat
  | _, 0 => []
  | n, fuel + 1 =>
    match q ((1 + (n : Int)) * dir) with
    | none => []
    | some s =>
      if s.surface = VA_INVALID_ID then []
      else s.surface :: collectAux q dir (n + 1) fuel

/-- The ids appended by one `add_surfaces` call with capacity `cap`. -/
def collect (q : Int → Option Frame) (dir : Int) (cap : Nat) : List Nat :=
  collectAux q dir 0 cap

/-- Model of `add_surfaces`: appends the collected ids to the existing
`surfaces` array (the C code does `MP_TARRAY_APPEND` without resetting
`num_surfaces`). -/
def add_surfaces (q : Int → Option Frame) (refs : SurfaceRefs) (dir : Int) :
    SurfaceRefs :=
  { refs with surfaces := refs.surfaces ++ collect q dir refs.max_surfaces }

/-- Hardware answer to `vaQueryVideoProcPipelineCaps` (the fields this
filter reads). -/
structure PipelineCaps where
  num_input_color_standards : Nat
  num_output_color_standards : Nat
  num_forward_references : Nat
  num_backward_references : Nat
  deriving DecidableEq, Repr

/-- The refqueue mode bitset (`MP_MODE_DEINT`, `MP_MODE_OUTPUT_FIELDS`,
`MP_MODE_INTERLACED_ONLY`) as three independent bits. -/
structure Mode where
  deint : Bool
  outputFields : Bool
  interlacedOnly : Bool
  deriving DecidableEq, Repr

/-- The empty mode bitset (the C value `0`). -/
def Mode.empty : Mode := ⟨false, false, false⟩

/-- What `update_pipeline` pushes into the refqueue collaborator: the two
arguments of `mp_refqueue_set_refs` and the mode bitset of
`mp_refqueue_set_mode`. -/
structure QueueConfig where
  refs : Nat × Nat
  mode : Mode
  deriving DecidableEq, Repr

/-- Oracle for the hardware call made by `update_pipeline`; `none` means
`vaQueryVideoProcPipelineCaps` failed. -/
structure UpdateOracle where
  queryCaps : Option PipelineCaps
  deriving DecidableEq, Repr

/-- The local `filters` pointer of `update_pipeline` (lines 108-113):
skips the first buffer when deinterlacing is configured but currently
disabled. -/
def effFilters (p : Priv) : List Nat :=
  if p.deint_type ≠ 0 ∧ p.do_deint = false then p.buffers.drop 1 else p.buffers

/-- The local `num_filters` of `update_pipeline` (a C `int`, so it can in
principle go negative). -/
def effNumFilters (p : Priv) : Int :=
  (p.buffers.length : Int) - (if p.deint_type ≠ 0 ∧ p.do_deint = false then 1 else 0)

/-- Lines 114-117: reset the populated parts of the pipeline. -/
def clearPipe (pipe : Pipeline) : Pipeline :=
  { pipe with
    forward := { pipe.forward with surfaces := [] }
    backward := { pipe.backward with surfaces := [] }
    num_input_colors := 0
    num_output_colors := 0
    num_filters := 0
    filters := none }

/-- Model of `update_pipeline` (lines 105-152).  Returns the new filter
state together with what was pushed to the refqueue. -/
def update_pipeline (p : Priv) (hw : UpdateOracle) : Priv × QueueConfig :=
  let p1 : Priv := { p with pipe := clearPipe p.pipe }
  if effNumFilters p = 0 then
    (p1, ⟨(0, 0), Mode.empty⟩)
  else
    match hw.queryCaps with
    | none => (p1, ⟨(0, 0), Mode.empty⟩)
    | some caps =>
      let pipe2 : Pipeline :=
        { filters := some (effFilters p)
          num_filters := effNumFilters p
          num_input_colors := caps.num_input_color_standards
          num_output_colors := caps.num_output_color_standards
          forward := { surfaces := [], max_surfaces := caps.num_forward_references }
          backward := { surfaces := [], max_surfaces := caps.num_backward_references } }
      let refs :=
        if p.reversal_bug then
          (Nat.max caps.num_forward_references caps.num_backward_references,
           Nat.max caps.num_forward_references caps.num_backward_references)
        else
          (caps.num_backward_references, caps.num_forward_references)
      let mode : Mode := ⟨p.do_deint, decide (2 ≤ p.deint_type), p.interlaced_only⟩
      ({ p with pipe := pipe2 }, ⟨refs, mode⟩)

/-- Oracle for the hardware calls of one-time setup: results of
`vaCreateConfig`, `vaCreateContext`, `vaQueryVideoProcFilters`, the
deinterlacing `vaQueryVideoProcFilterCaps` (empty list covers both a
failed query and zero capabilities, which the C code treats alike), and
`va_create_filter_buffer` (`none` stands for `VA_INVALID_ID`). -/
structure InitOracle where
  createConfig : Option Nat
  createContext : Option Nat
  queryFilters : Option (List Nat)
  queryDeintCaps : List Nat
  createFilterBuffer : Option Nat
  deriving DecidableEq, Repr

/-- Inner loop of lines 469-477: for each reported capability entry
matching the chosen algorithm, (re)create the filter parameter buffer. -/
def scanDeintCaps (hw : InitOracle) (algorithm : Nat) (buf : Nat) : Nat :=
  hw.queryDeintCaps.foldl
    (fun b c =>
      if c = algorithm then
        match hw.createFilterBuffer with
        | some id => id
        | none => VA_INVALID_ID
      else b)
    buf

/-- Outer loop of lines 459-481 over the hardware-reported filter types,
computing the final `buffers[VAProcFilterDeinterlacing]` slot. -/
def scanFilters (deintType : Nat) (hw : InitOracle) (filters : List Nat) : Nat :=
  filters.foldl
    (fun buf ft =>
      if ft = VAProcFilterDeinterlacing then
        if deintType < 1 then buf
        else if hw.queryDeintCaps.length = 0 then buf
        else scanDeintCaps hw (deint_algorithm.getD deintType 0) buf
      else buf)
    VA_INVALID_ID

/-- Model of one-time setup `initialize` (lines 432-488).  Returns `none`
exactly when the C function returns `false`. -/
def initFilter (p : Priv) (hw : InitOracle) : Option Priv :=
  match hw.createConfig with
  | none => none
  | some config =>
  match hw.createContext with
  | none => none
  | some context =>
  match hw.queryFilters with
  | none => none
  | some filters =>
  let deintBuf := scanFilters p.deint_type hw filters
  some { p with
    config := some config
    context := some context
    buffers := if deintBuf ≠ VA_INVALID_ID then [deintBuf] else []
    do_deint := p.deint_type != 0 }

/-- Observable hardware interactions of one `render` call.  `beginPic`
and `createBuf` are recorded when the picture was actually begun / the
buffer actually created (a failed call leaves no state to clean up);
`destroyBuf` records the unconditional `vaDestroyBuffer` with the value
of the `buffer` variable at cleanup. -/
inductive HwEvent where
  | allocImg
  | freeImg
  | beginPic
  | endPic
  | createBuf (id : Nat)
  | destroyBuf (id : Nat)
  | renderPic (id : Nat)
  deriving DecidableEq, Repr

/-- Oracle for the fallible hardware calls inside `render`. -/
structure RenderOracle where
  allocOut : Option Frame
  beginPictureOk : Bool
  createBuffer : Option Nat
  mapFilterOk : Bool
  mapPipelineOk : Bool
  renderOk : Bool
  deriving DecidableEq, Repr

/-- Contents of the submitted `VAProcPipelineParameterBuffer` plus the
deinterlacing filter parameter flags written in the same call. -/
structure RenderJob where
  surface : Nat
  filterFlags : Nat
  filters : List Nat
  num_filters : Int
  forwardRefs : List Nat
  backwardRefs : List Nat
  deintFlags : Nat
  deriving DecidableEq, Repr

/-- Result of one `render` call: the updated filter state, the returned
image (or `none` on failure), the hardware event trace, and the job as
submitted to `vaRenderPicture` (when that call was reached). -/
structure RenderOut where
  priv : Priv
  out : Option Frame
  events : List HwEvent
  job : Option RenderJob
  deriving DecidableEq, Repr

/-- The `cleanup:` block of `render` (lines 270-277): conditional
`vaEndPicture`, unconditional `vaDestroyBuffer`, and on failure the
output image is released and no surface is returned. -/
def render_cleanup (p : Priv) (img : Option Frame) (needEnd : Bool) (buffer : Nat)
    (success : Bool) (events : List HwEvent) (job : Option RenderJob) : RenderOut :=
  let ev1 := if needEnd then events ++ [HwEvent.endPic] else events
  let ev2 := ev1 ++ [HwEvent.destroyBuf buffer]
  if success then ⟨p, img, ev2, job⟩
  else ⟨p, none, if img.isSome then ev2 ++ [HwEvent.freeImg] else ev2, job⟩

/-- Model of the per-unit render protocol `render` (lines 176-278),
translated goto-by-goto. -/
def render (p : Priv) (q : RefQueue) (hw : RenderOracle) : RenderOut :=
  let in_id := va_surface_id (q.get 0)
  if p.pipe.filters = none ∨ in_id = VA_INVALID_ID ∨ p.hw_pool = false then
    render_cleanup p none false VA_INVALID_ID false [] none
  else
    match hw.allocOut with
    | none => render_cleanup p none false VA_INVALID_ID false [] none
    | some img =>
      let ev0 := [HwEvent.allocImg]
      let flags := p.paramsCsFlag |||
        (if q.shouldDeint = false then VA_FRAME_PICTURE
         else if q.isTopField then VA_TOP_FIELD else VA_BOTTOM_FIELD)
      if img.surface = VA_INVALID_ID then
        render_cleanup p (some img) false VA_INVALID_ID false ev0 none
      else if hw.beginPictureOk = false then
        render_cleanup p (some img) false VA_INVALID_ID false ev0 none
      else
        let ev1 := ev0 ++ [HwEvent.beginPic]
        match hw.createBuffer with
        | none => render_cleanup p (some img) true VA_INVALID_ID false ev1 none
        | some buffer =>
          let ev2 := ev1 ++ [HwEvent.createBuf buffer]
          if hw.mapFilterOk = false then
            render_cleanup p (some img) true buffer false ev2 none
          else
            let deintFlags :=
              (if flags &&& VA_TOP_FIELD ≠ 0 then 0
               else VA_DEINTERLACING_BOTTOM_FIELD) |||
              (if q.topFieldFirst = false then VA_DEINTERLACING_BOTTOM_FIELD_FIRST
               else 0)
            if hw.mapPipelineOk = false then
              render_cleanup p (some img) true buffer false ev2 none
            else
              let dir : Int := if p.reversal_bug then -1 else 1
              let fwd := add_surfaces q.get p.pipe.forward (1 * dir)
              let bwd := add_surfaces q.get p.pipe.backward (-1 * dir)
              let p2 : Priv :=
                { p with pipe := { p.pipe with forward := fwd, backward := bwd } }
              let job : RenderJob :=
                { surface := in_id
                  filterFlags := flags
                  filters := p.pipe.filters.getD []
                  num_filters := p.pipe.num_filters
                  forwardRefs := fwd.surfaces
                  backwardRefs := bwd.surfaces
                  deintFlags := deintFlags }
              let ev3 := ev2 ++ [HwEvent.renderPic buffer]
              if hw.renderOk = false then
                render_cleanup p2 (some img) true buffer false ev3 (some job)
              else
                render_cleanup p2 (some img) true buffer true ev3 (some job)

/-- What one `filter_out` call produced for the surrounding pipeline. -/
inductive FOut where
  | noOutput
  | passthrough (f : Option Frame)
  | output (f : Frame)
  | failed
  deriving DecidableEq, Repr

/-- Result of one `filter_out` call. -/
structure FilterOutRes where
  priv : Priv
  res : FOut
  events : List HwEvent
  job : Option RenderJob
  deriving DecidableEq, Repr

/-- Model of `filter_out` (lines 313-334). -/
def filter_out (p : Priv) (q : RefQueue) (hw : RenderOracle) : FilterOutRes :=
  if q.hasOutput = false then ⟨p, FOut.noOutput, [], none⟩
  else if p.pipe.num_filters = 0 ∨ q.shouldDeint = false then
    ⟨p, FOut.passthrough (q.get 0), [], none⟩
  else
    let r := render p q hw
    match r.out with
    | none => ⟨r.priv, FOut.failed, r.events, r.job⟩
    | some o => ⟨r.priv, FOut.output o, r.events, r.job⟩

theorem collectAux_length_le (q : Int → Option Frame) (dir : Int) :
    ∀ fuel n, (collectAux q dir n fuel).length ≤ fuel := by
  intro fuel
  induction fuel with
  | zero => intro n; simp [collectAux]
  | succ m ih =>
    intro n
    simp only [collectAux]
    cases h : q ((1 + (n : Int)) * dir) with
    | none => simp
    | some s =>
      by_cases hs : s.surface = VA_INVALID_ID
      · simp [hs]
      · simpa [hs] using Nat.succ_le_succ (ih (n + 1))

theorem collectAux_length_lt (q : Int → Option Frame) (dir : Int) :
    ∀ fuel n, (∃ k < fuel, q ((1 + ((n + k : Nat) : Int)) * dir) = none) →
      (collectAux q dir n fuel).length < fuel := by
  intro fuel
  induction fuel with
  | zero => intro n ⟨k, hk, _⟩; omega
  | succ m ih =>
    intro n ⟨k, hk, hnone⟩
    simp only [collectAux]
    cases h : q ((1 + (n : Int)) * dir) with
    | none => simp
    | some s =>
      by_cases hs : s.surface = VA_INVALID_ID
      · simp [hs]
      · have hk0 : k ≠ 0 := by
          intro h0
          rw [h0] at hnone
          simp only [Nat.add_zero] at hnone
          rw [hnone] at h
          exact Option.noConfusion h
        have : (collectAux q dir (n + 1) m).length < m := by
          refine ih (n + 1) ⟨k - 1, by omega, ?_⟩
          have : (n + 1) + (k - 1) = n + k := by omega
          rw [this]
          exact hnone
        simpa [hs] using Nat.succ_lt_succ this

theorem collectAux_elem (q : Int → Option Frame) (dir : Int) :
    ∀ fuel n i, (h : i < (collectAux q dir n fuel).length) →
      ∃ s, q ((1 + ((n + i : Nat) : Int)) * dir) = some s ∧
        s.surface ≠ VA_INVALID_ID ∧
        (collectAux q dir n fuel).getD i 0 = s.surface := by
  intro fuel
  induction fuel with
  | zero => intro n i h; simp [collectAux] at h
  | succ m ih =>
    intro n i h
    simp only [collectAux] at h ⊢
    cases hq : q ((1 + (n : Int)) * dir) with
    | none => rw [hq] at h; simp at h
    | some s =>
      rw [hq] at h
      by_cases hs : s.surface = VA_INVALID_ID
      · simp [hs] at h
      · simp only [hs, if_false] at h ⊢
        cases i with
        | zero => exact ⟨s, by simpa using hq, hs, by simp⟩
        | succ j =>
          have hj : j < (collectAux q dir (n + 1) m).length := by
            simpa using Nat.lt_of_succ_lt_succ h
          obtain ⟨t, hq', hne, hval⟩ := ih (n + 1) j hj
          refine ⟨t, ?_, hne, by simpa using hval⟩
          have : (n + 1) + j = n + (j + 1) := by omega
          rw [this] at hq'
          exact hq'

theorem collectAux_stop (q : Int → Option Frame) (dir : Int) :
    ∀ fuel n, (collectAux q dir n fuel).length < fuel →
      q ((1 + ((n + (collectAux q dir n fuel).length : Nat) : Int)) * dir) = none ∨
      ∃ s, q ((1 + ((n + (collectAux q dir n fuel).length : Nat) : Int)) * dir) = some s ∧
        s.surface = VA_INVALID_ID := by
  intro fuel
  induction fuel with
  | zero => intro n h; omega
  | succ m ih =>
    intro n h
    simp only [collectAux] at h ⊢
    cases hq : q ((1 + (n : Int)) * dir) with
    | none =>
      left
      simpa using hq
    | some s =>
      rw [hq] at h
      by_cases hs : s.surface = VA_INVALID_ID
      · right
        simp only [hs, if_true, List.length_nil, Nat.add_zero]
        exact ⟨s, hq, hs⟩
      · simp only [hs, if_false, List.length_cons] at h ⊢
        have hlt : (collectAux q dir (n + 1) m).length < m := Nat.lt_of_succ_lt_succ h
        have := ih (n + 1) hlt
        have harith : (n + 1) + (collectAux q dir (n + 1) m).length
            = n + ((collectAux q dir (n + 1) m).length + 1) := by omega
        rw [harith] at this
        exact this

theorem foldl_const {α β : Type} (f : β → α → β) (hf : ∀ b a, f b a = b) :
    ∀ (l : List α) (b : β), l.foldl f b = b := by
  intro l
  induction l with
  | nil => intro b; rfl
  | cons a t ih => intro b; rw [List.foldl_cons, hf]; exact ih b

theorem scanFilters_zero (hw : InitOracle) (l : List Nat) :
    scanFilters 0 hw l = VA_INVALID_ID := by
  unfold scanFilters
  refine foldl_const _ ?_ _ _
  intro b a
  by_cases h : a = VAProcFilterDeinterlacing <;> simp [h]

theorem initFilter_fields (p0 : Priv) (hw : InitOracle) (p : Priv)
    (h : initFilter p0 hw = some p) :
    p.deint_type = p0.deint_type
    ∧ p.interlaced_only = p0.interlaced_only
    ∧ p.reversal_bug = p0.reversal_bug
    ∧ p.do_deint = (p0.deint_type != 0)
    ∧ (p0.deint_type = 0 → p.buffers = []) := by
  obtain ⟨cc, cx, qf, qd, cfb⟩ := hw
  cases cc with
  | none => exact absurd h (by simp [initFilter])
  | some config =>
    cases cx with
    | none => exact absurd h (by simp [initFilter])
    | some context =>
      cases qf with
      | none => exact absurd h (by simp [initFilter])
      | some filters =>
        simp only [initFilter, Option.some.injEq] at h
        subst h
        refine ⟨rfl, rfl, rfl, rfl, ?_⟩
        intro h0
        simp [h0, scanFilters_zero]

/-- C7: the surface-reference collector gathers at most `cap` surfaces;
every collected entry comes from an actual frame at the next offset in
direction `dir` with a valid (non-sentinel) surface id, so the list is
never padded; when it returns fewer than `cap` entries the next probed
offset yielded no frame or an invalid sentinel; and whenever the queue is
exhausted before `cap` offsets the list is strictly shorter than `cap`.
Moreover `add_surfaces` appends exactly this list, growing the stored
list by at most `max_surfaces`. -/
theorem collector_bounds (q : Int → Option Frame) (dir : Int) (cap : Nat) :
    (collect q dir cap).length ≤ cap
    ∧ (∀ i, i < (collect q dir cap).length →
        ∃ s, q ((1 + (i : Int)) * dir) = some s ∧ s.surface ≠ VA_INVALID_ID ∧
          (collect q dir cap).getD i 0 = s.surface)
    ∧ ((collect q dir cap).length < cap →
        q ((1 + ((collect q dir cap).length : Int)) * dir) = none ∨
        ∃ s, q ((1 + ((collect q dir cap).length : Int)) * dir) = some s ∧
          s.surface = VA_INVALID_ID)
    ∧ ((∃ k, k < cap ∧ q ((1 + (k : Int)) * dir) = none) →
        (collect q dir cap).length < cap)
    ∧ (∀ refs : SurfaceRefs,
        (add_surfaces q refs dir).surfaces
            = refs.surfaces ++ collect q dir refs.max_surfaces
        ∧ (add_surfaces q refs dir).surfaces.length
            ≤ refs.surfaces.length + refs.max_surfaces) := by
  refine ⟨collectAux_length_le q dir cap 0, ?_, ?_, ?_, ?_⟩
  · intro i hi
    have h := collectAux_elem q dir cap 0 i hi
    simpa using h
  · intro hlt
    have h := collectAux_stop q dir cap 0 hlt
    simpa using h
  · rintro ⟨k, hk, hnone⟩
    refine collectAux_length_lt q dir cap 0 ⟨k, hk, ?_⟩
    simpa using hnone
  · intro refs
    refine ⟨rfl, ?_⟩
    simp only [add_surfaces, List.length_append]
    exact Nat.add_le_add_left (collectAux_length_le q dir refs.max_surfaces 0) _

/-- C5: with the reversal-bug workaround enabled, a successful capability
query makes `update_pipeline` configure the refqueue with
`max(num_forward_references, num_backward_references)` on both sides. -/
theorem reversal_refs_symmetric (p : Priv) (hw : UpdateOracle)
    (caps : PipelineCaps) (hq : hw.queryCaps = some caps)
    (hne : effNumFilters p ≠ 0) (hrb : p.reversal_bug = true) :
    (update_pipeline p hw).2.refs =
      (Nat.max caps.num_forward_references caps.num_backward_references,
       Nat.max caps.num_forward_references caps.num_backward_references) := by
  unfold update_pipeline
  simp [hne, hq, hrb]

/-- C8: when the active filter set is empty or the capability query
fails, `update_pipeline` marks the pipeline empty (no filters, cleared
surface lists) and still pushes reference counts `(0, 0)` and the empty
mode bitset; and after one-time setup with selector 0 (deinterlacing
disabled) the pushed reference counts are `(0, 0)` and the whole mode
bitset is empty — in particular the deinterlace bit is false —
regardless of the interlaced-only and workaround flags. -/
theorem nodeint_pushes_zero :
    (∀ (p : Priv) (hw : UpdateOracle),
      (effNumFilters p = 0 ∨ hw.queryCaps = none) →
        (update_pipeline p hw).2 = ⟨(0, 0), Mode.empty⟩
        ∧ (update_pipeline p hw).1.pipe.num_filters = 0
        ∧ (update_pipeline p hw).1.pipe.filters = none
        ∧ (update_pipeline p hw).1.pipe.forward.surfaces = []
        ∧ (update_pipeline p hw).1.pipe.backward.surfaces = [])
    ∧ (∀ (p0 : Priv) (hwi : InitOracle) (p : Priv) (hw : UpdateOracle),
        initFilter p0 hwi = some p → p.deint_type = 0 →
          (update_pipeline p hw).2.refs = (0, 0)
          ∧ (update_pipeline p hw).2.mode = Mode.empty) := by
  constructor
  · intro p hw h
    rcases h with h | h
    · unfold update_pipeline
      simp [h, clearPipe]
    · by_cases h0 : effNumFilters p = 0
      · unfold update_pipeline
        simp [h0, clearPipe]
      · unfold update_pipeline
        simp [h0, h, clearPipe]
  · intro p0 hwi p hw hinit hd
    obtain ⟨hdt, _, _, hdo, hbuf⟩ := initFilter_fields p0 hwi p hinit
    have hb : p.buffers = [] := hbuf (hdt ▸ hd)
    have h0 : effNumFilters p = 0 := by
      unfold effNumFilters
      simp [hb, hd]
    unfold update_pipeline
    simp [h0]

/-- C9: on a successful capability query from a state produced by
one-time setup, the pushed mode bitset has the deinterlace bit set (and
at least one filter was accepted into the pipeline), the emit-both-fields
bit set exactly when the configured selector is at least 2 (so the
first-field variant, index 1 — which maps to the same hardware bob
algorithm as index 2 — does not set it), and the interlaced-only bit
mirroring the configuration flag verbatim. -/
theorem mode_bits_on_success (p0 : Priv) (hwi : InitOracle) (p : Priv)
    (hw : UpdateOracle) (caps : PipelineCaps)
    (hinit : initFilter p0 hwi = some p) (hq : hw.queryCaps = some caps)
    (hne : effNumFilters p ≠ 0) :
    (update_pipeline p hw).2.mode.deint = true
    ∧ (update_pipeline p hw).1.pipe.num_filters ≠ 0
    ∧ ((update_pipeline p hw).2.mode.outputFields = true ↔ 2 ≤ p.deint_type)
    ∧ (update_pipeline p hw).2.mode.interlacedOnly = p.interlaced_only
    ∧ deint_algorithm.getD 1 0 = deint_algorithm.getD 2 0
    ∧ (p.deint_type = 1 → (update_pipeline p hw).2.mode.outputFields = false) := by
  obtain ⟨hdt, _, _, hdo, hbuf⟩ := initFilter_fields p0 hwi p hinit
  have hd0 : p.deint_type ≠ 0 := by
    intro h0
    apply hne
    have hb : p.buffers = [] := hbuf (hdt ▸ h0)
    unfold effNumFilters
    simp [hb, h0]
  have hdo' : p.do_deint = true := by
    rw [hdo, ← hdt] at *
    simpa [bne_iff_ne] using hd0
  unfold update_pipeline
  simp only [hne, hq, if_false]
  refine ⟨?_, ?_, ?_, ?_, ?_, ?_⟩ <;>
    simp [hne, hdo', deint_algorithm]
  · intro h1
    simp [h1]

/-- C3 counterexample: an oracle where config and context creation both
succeed but the filter-type enumeration `vaQueryVideoProcFilters` fails
still makes one-time setup return false, contradicting the claim that
only context/config creation failure does. -/
def basePriv : Priv :=
  { deint_type := 2, interlaced_only := true, reversal_bug := true,
    do_deint := false, buffers := [], config := none, context := none,
    paramsCsFlag := 0,
    pipe := ⟨none, 0, 0, 0, ⟨[], 0⟩, ⟨[], 0⟩⟩,
    hw_pool := false }

/-- Oracle with successful config/context creation but a failing
filter-type enumeration. -/
def hwInitQFail : InitOracle :=
  { createConfig := some 1, createContext := some 2, queryFilters := none,
    queryDeintCaps := [], createFilterBuffer := none }

/-- C3 is refuted: config and context creation succeed, yet setup
returns false because the filter enumeration query failed. -/
theorem init_fails_on_filter_query :
    hwInitQFail.createConfig.isSome = true
    ∧ hwInitQFail.createContext.isSome = true
    ∧ initFilter basePriv hwInitQFail = none := by decide

/-- C3 amended: one-time setup returns false exactly when config
creation, context creation, or the filter-type enumeration query fails;
every other condition (in particular an unsupported deinterlacing
algorithm) still returns true. -/
theorem init_false_iff (p : Priv) (hw : InitOracle) :
    initFilter p hw = none ↔
      hw.createConfig = none ∨ hw.createContext = none ∨
        hw.queryFilters = none := by
  obtain ⟨cc, cx, qf, qd, cfb⟩ := hw
  cases cc <;> cases cx <;> cases qf <;> simp [initFilter]

/-- Number of successfully begun hardware pictures in a trace. -/
def beginCount : List HwEvent → Nat
  | [] => 0
  | HwEvent.beginPic :: rest => beginCount rest + 1
  | _ :: rest => beginCount rest

/-- Number of `vaEndPicture` calls in a trace. -/
def endCount : List HwEvent → Nat
  | [] => 0
  | HwEvent.endPic :: rest => endCount rest + 1
  | _ :: rest => endCount rest

/-- Number of successful creations of buffer `b` in a trace. -/
def createCount (b : Nat) : List HwEvent → Nat
  | [] => 0
  | HwEvent.createBuf id :: rest =>
      (if id = b then 1 else 0) + createCount b rest
  | _ :: rest => createCount b rest

/-- Number of `vaDestroyBuffer` calls on buffer `b` in a trace. -/
def destroyCount (b : Nat) : List HwEvent → Nat
  | [] => 0
  | HwEvent.destroyBuf id :: rest =>
      (if id = b then 1 else 0) + destroyCount b rest
  | _ :: rest => destroyCount b rest

/-- Number of successful output-surface allocations in a trace. -/
def allocCount : List HwEvent → Nat
  | [] => 0
  | HwEvent.allocImg :: rest => allocCount rest + 1
  | _ :: rest => allocCount rest

/-- Number of released output images in a trace. -/
def freeCount : List HwEvent → Nat
  | [] => 0
  | HwEvent.freeImg :: rest => freeCount rest + 1
  | _ :: rest => freeCount rest

theorem render_trace_cases (p : Priv) (q : RefQueue) (hw : RenderOracle) :
    ((render p q hw).events = [HwEvent.destroyBuf VA_INVALID_ID]
      ∧ (render p q hw).out = none)
    ∨ ((render p q hw).events
          = [HwEvent.allocImg, HwEvent.destroyBuf VA_INVALID_ID, HwEvent.freeImg]
      ∧ (render p q hw).out = none)
    ∨ ((render p q hw).events
          = [HwEvent.allocImg, HwEvent.beginPic, HwEvent.endPic,
             HwEvent.destroyBuf VA_INVALID_ID, HwEvent.freeImg]
      ∧ (render p q hw).out = none)
    ∨ (∃ b, hw.createBuffer = some b
      ∧ (render p q hw).events
          = [HwEvent.allocImg, HwEvent.beginPic, HwEvent.createBuf b,
             HwEvent.endPic, HwEvent.destroyBuf b, HwEvent.freeImg]
      ∧ (render p q hw).out = none)
    ∨ (∃ b, hw.createBuffer = some b
      ∧ (render p q hw).events
          = [HwEvent.allocImg, HwEvent.beginPic, HwEvent.createBuf b,
             HwEvent.renderPic b, HwEvent.endPic, HwEvent.destroyBuf b,
             HwEvent.freeImg]
      ∧ (render p q hw).out = none)
    ∨ (∃ b, hw.createBuffer = some b
      ∧ (render p q hw).events
          = [HwEvent.allocImg, HwEvent.beginPic, HwEvent.createBuf b,
             HwEvent.renderPic b, HwEvent.endPic, HwEvent.destroyBuf b]
      ∧ (render p q hw).out = hw.allocOut
      ∧ hw.allocOut.isSome = true
      ∧ hw.beginPictureOk = true ∧ hw.mapFilterOk = true
      ∧ hw.mapPipelineOk = true ∧ hw.renderOk = true) := by
  obtain ⟨ao, bp, cb, mf, mpb, ro⟩ := hw
  unfold render
  by_cases h1 : (p.pipe.filters = none ∨ va_surface_id (q.get 0) = VA_INVALID_ID
      ∨ p.hw_pool = false)
  · simp [h1, render_cleanup]
  · cases ao with
    | none => simp [h1, render_cleanup]
    | some img =>
      by_cases h2 : img.surface = VA_INVALID_ID
      · simp [h1, h2, render_cleanup]
      · cases bp
        · simp [h1, h2, render_cleanup]
        · cases cb with
          | none => simp [h1, h2, render_cleanup]
          | some b =>
            cases mf
            · simp [h1, h2, render_cleanup]
            · cases mpb
              · simp [h1, h2, render_cleanup]
              · cases ro <;> simp [h1, h2, render_cleanup]

/-- C1: on every exit path of `render` the hardware state stays balanced:
every successfully begun picture is ended, every created pipeline
parameter buffer is destroyed, every allocated output image is either
returned or released, and a surface is only returned when every protocol
step (begin picture, create buffer, both buffer maps, submit) succeeded
— so on failure no output surface is returned. -/
theorem render_balanced (p : Priv) (q : RefQueue) (hw : RenderOracle) :
    beginCount (render p q hw).events = endCount (render p q hw).events
    ∧ (∀ b, b ≠ VA_INVALID_ID →
        createCount b (render p q hw).events
          = destroyCount b (render p q hw).events)
    ∧ allocCount (render p q hw).events
        = freeCount (render p q hw).events
          + (if (render p q hw).out.isSome then 1 else 0)
    ∧ ((render p q hw).out.isSome = true →
        hw.beginPictureOk = true ∧ hw.createBuffer.isSome = true
        ∧ hw.mapFilterOk = true ∧ hw.mapPipelineOk = true
        ∧ hw.renderOk = true) := by
  rcases render_trace_cases p q hw with
    ⟨he, ho⟩ | ⟨he, ho⟩ | ⟨he, ho⟩ | ⟨b, hb, he, ho⟩ | ⟨b, hb, he, ho⟩ |
    ⟨b, hb, he, ho, h7, h3, h4, h5, h6⟩
  · refine ⟨?_, ?_, ?_, ?_⟩
    · simp [he, beginCount, endCount]
    · intro x hx
      simp [he, createCount, destroyCount, Ne.symm hx]
    · simp [he, ho, allocCount, freeCount]
    · simp [ho]
  · refine ⟨?_, ?_, ?_, ?_⟩
    · simp [he, beginCount, endCount]
    · intro x hx
      simp [he, createCount, destroyCount, Ne.symm hx]
    · simp [he, ho, allocCount, freeCount]
    · simp [ho]
  · refine ⟨?_, ?_, ?_, ?_⟩
    · simp [he, beginCount, endCount]
    · intro x hx
      simp [he, createCount, destroyCount, Ne.symm hx]
    · simp [he, ho, allocCount, freeCount]
    · simp [ho]
  · refine ⟨?_, ?_, ?_, ?_⟩
    · simp [he, beginCount, endCount]
    · intro x hx
      simp [he, createCount, destroyCount]
    · simp [he, ho, allocCount, freeCount]
    · simp [ho]
  · refine ⟨?_, ?_, ?_, ?_⟩
    · simp [he, beginCount, endCount]
    · intro x hx
      simp [he, createCount, destroyCount]
    · simp [he, ho, allocCount, freeCount]
    · simp [ho]
  · refine ⟨?_, ?_, ?_, ?_⟩
    · simp [he, beginCount, endCount]
    · intro x hx
      simp [he, createCount, destroyCount]
    · simp [he, ho, h7, allocCount, freeCount]
    · intro _
      exact ⟨h3, by simp [hb], h4, h5, h6⟩

theorem lor_mask3 (cs f : Nat) (hcs : cs % 4 = 0) (hf : f < 4) :
    (cs ||| f) &&& 3 = f := by
  have h3 : (3 : Nat) = 2 ^ 2 - 1 := by norm_num
  have hcs3 : cs &&& 3 = 0 := by
    rw [h3, Nat.and_pow_two_sub_one_eq_mod]
    simpa using hcs
  have hf3 : f &&& 3 = f := by
    rw [h3, Nat.and_pow_two_sub_one_eq_mod]
    exact Nat.mod_eq_of_lt (by omega)
  rw [Nat.and_distrib_right, hcs3, hf3, Nat.zero_or]

theorem render_job_spec (p : Priv) (q : RefQueue) (hw : RenderOracle)
    (j : RenderJob) (hj : (render p q hw).job = some j) :
    j.filterFlags = p.paramsCsFlag |||
      (if q.shouldDeint = false then VA_FRAME_PICTURE
       else if q.isTopField then VA_TOP_FIELD else VA_BOTTOM_FIELD)
    ∧ j.forwardRefs = p.pipe.forward.surfaces
        ++ collect q.get (if p.reversal_bug then -1 else 1)
            p.pipe.forward.max_surfaces
    ∧ j.backwardRefs = p.pipe.backward.surfaces
        ++ collect q.get (if p.reversal_bug then 1 else -1)
            p.pipe.backward.max_surfaces := by
  obtain ⟨ao, bp, cb, mf, mpb, ro⟩ := hw
  unfold render at hj
  by_cases h1 : (p.pipe.filters = none ∨ va_surface_id (q.get 0) = VA_INVALID_ID
      ∨ p.hw_pool = false)
  · simp [h1, render_cleanup] at hj
  · cases ao with
    | none => simp [h1, render_cleanup] at hj
    | some img =>
      by_cases h2 : img.surface = VA_INVALID_ID
      · simp [h1, h2, render_cleanup] at hj
      · cases bp
        · simp [h1, h2, render_cleanup] at hj
        · cases cb with
          | none => simp [h1, h2, render_cleanup] at hj
          | some b =>
            cases mf
            · simp [h1, h2, render_cleanup] at hj
            · cases mpb
              · simp [h1, h2, render_cleanup] at hj
              · cases ro <;>
                · simp only [h1, h2, render_cleanup, if_false, if_true,
                    Bool.false_eq_true, Bool.true_eq_false, if_neg, ite_false,
                    ite_true, Option.some.injEq] at hj
                  subst hj
                  cases hr : p.reversal_bug <;>
                    norm_num [hr, add_surfaces]

theorem filter_out_job (p : Priv) (q : RefQueue) (hw : RenderOracle)
    (j : RenderJob) (hj : (filter_out p q hw).job = some j) :
    q.hasOutput = true ∧ p.pipe.num_filters ≠ 0 ∧ q.shouldDeint = true
    ∧ (render p q hw).job = some j := by
  unfold filter_out at hj
  by_cases h1 : q.hasOutput = false
  · simp [h1] at hj
  · have h1' : q.hasOutput = true := by
      cases h : q.hasOutput
      · exact absurd h h1
      · rfl
    by_cases h2 : (p.pipe.num_filters = 0 ∨ q.shouldDeint = false)
    · simp [h1', h2] at hj
    · push_neg at h2
      have hsd : q.shouldDeint = true := by
        cases h : q.shouldDeint
        · exact absurd h h2.2
        · rfl
      refine ⟨h1', h2.1, hsd, ?_⟩
      cases hro : (render p q hw).out with
      | none =>
        simp [h1', h2.1, hsd, hro] at hj
        exact hj
      | some o =>
        simp [h1', h2.1, hsd, hro] at hj
        exact hj

/-- C6: the reversal toggle decides which queue direction fills the
render job's forward versus backward reference list: with the workaround
enabled the forward list is collected from direction −1 (past offsets)
and the backward list from +1; with it disabled, forward from +1 and
backward from −1 — and the same collection function is used either
way. -/
theorem reversal_swaps_directions (p : Priv) (q : RefQueue)
    (hw : RenderOracle) (j : RenderJob)
    (hj : (render p q hw).job = some j) :
    (p.reversal_bug = true →
      j.forwardRefs = p.pipe.forward.surfaces
          ++ collect q.get (-1) p.pipe.forward.max_surfaces
      ∧ j.backwardRefs = p.pipe.backward.surfaces
          ++ collect q.get 1 p.pipe.backward.max_surfaces)
    ∧ (p.reversal_bug = false →
      j.forwardRefs = p.pipe.forward.surfaces
          ++ collect q.get 1 p.pipe.forward.max_surfaces
      ∧ j.backwardRefs = p.pipe.backward.surfaces
          ++ collect q.get (-1) p.pipe.backward.max_surfaces) := by
  obtain ⟨_, hf, hb⟩ := render_job_spec p q hw j hj
  constructor <;> intro hr <;> rw [hr] at hf hb <;>
    simp at hf hb <;> exact ⟨hf, hb⟩

/-- C10: every hardware job submitted through `filter_out` carries the
top-field or the bottom-field picture-structure flag (matching the
queue's current field), never the whole-frame flag: the caller only
reaches `render` when deinterlacing is requested and the pipeline is
non-empty, so the whole-frame branch is unreachable there. -/
theorem filter_out_field_flags (p : Priv) (q : RefQueue) (hw : RenderOracle)
    (j : RenderJob) (hcs : p.paramsCsFlag % 4 = 0)
    (hj : (filter_out p q hw).job = some j) :
    (q.isTopField = true →
      j.filterFlags &&& (VA_TOP_FIELD ||| VA_BOTTOM_FIELD) = VA_TOP_FIELD)
    ∧ (q.isTopField = false →
      j.filterFlags &&& (VA_TOP_FIELD ||| VA_BOTTOM_FIELD) = VA_BOTTOM_FIELD)
    ∧ j.filterFlags &&& (VA_TOP_FIELD ||| VA_BOTTOM_FIELD)
        ≠ VA_FRAME_PICTURE := by
  obtain ⟨hout, hnum, hsd, hrj⟩ := filter_out_job p q hw j hj
  obtain ⟨hflags, _, _⟩ := render_job_spec p q hw j hrj
  rw [hsd] at hflags
  simp only [Bool.true_eq_false, if_false] at hflags
  have h12 : (VA_TOP_FIELD ||| VA_BOTTOM_FIELD) = 3 := by decide
  cases hit : q.isTopField
  · rw [hit] at hflags
    simp only [Bool.false_eq_true, if_false] at hflags
    have hv : j.filterFlags &&& 3 = VA_BOTTOM_FIELD := by
      rw [hflags]
      exact lor_mask3 _ _ hcs (by decide)
    refine ⟨by intro h; exact absurd h (by decide), ?_, ?_⟩
    · intro _
      rw [h12]
      exact hv
    · rw [h12, hv]
      decide
  · rw [hit] at hflags
    simp only [if_true] at hflags
    have hv : j.filterFlags &&& 3 = VA_TOP_FIELD := by
      rw [hflags]
      exact lor_mask3 _ _ hcs (by decide)
    refine ⟨?_, by intro h; exact absurd h (by decide), ?_⟩
    · intro _
      rw [h12]
      exact hv
    · rw [h12, hv]
      decide

/-- Queue whose current frame carries the invalid surface sentinel. -/
def qBad : RefQueue :=
  { get := fun _ => some ⟨VA_INVALID_ID⟩, hasOutput := true,
    shouldDeint := true, isTopField := true, topFieldFirst := true }

/-- Queue with a valid surface at every offset, deinterlacing requested,
currently on the top field of a top-field-first stream. -/
def qGood : RefQueue :=
  { get := fun _ => some ⟨3⟩, hasOutput := true, shouldDeint := true,
    isTopField := true, topFieldFirst := true }

/-- Render oracle on which every hardware call succeeds. -/
def hwOk : RenderOracle :=
  { allocOut := some ⟨7⟩, beginPictureOk := true, createBuffer := some 20,
    mapFilterOk := true, mapPipelineOk := true, renderOk := true }

/-- Filter state with a negotiated one-filter pipeline (capacity 1 on
both reference sides) and an allocated surface pool. -/
def pActive : Priv :=
  { basePriv with
    do_deint := true
    buffers := [5]
    pipe := { filters := some [5], num_filters := 1, num_input_colors := 0,
              num_output_colors := 0, forward := ⟨[], 1⟩, backward := ⟨[], 1⟩ }
    hw_pool := true }

/-- C4 counterexample: with a non-empty pipeline, deinterlacing
requested, a pool allocated, but the input surface being the invalid
sentinel, the unit is not emitted as a passthrough copy — `render` fails
and `filter_out` reports failure, dropping the unit. -/
theorem invalid_surface_not_passthrough :
    va_surface_id (qBad.get 0) = VA_INVALID_ID
    ∧ pActive.pipe.num_filters ≠ 0
    ∧ pActive.hw_pool = true
    ∧ (filter_out pActive qBad hwOk).res = FOut.failed := by decide

/-- C4 amended: when the pipeline is empty the unit is emitted as a
direct passthrough copy of the current input frame; when the pipeline is
non-empty and deinterlacing is requested but the input surface is the
invalid sentinel or no surface pool is allocated, the unit is dropped
(`filter_out` reports failure) without submitting any hardware job. -/
theorem precondition_behaviour (p : Priv) (q : RefQueue) (hw : RenderOracle)
    (hout : q.hasOutput = true) :
    (p.pipe.num_filters = 0 →
      (filter_out p q hw).res = FOut.passthrough (q.get 0))
    ∧ (p.pipe.num_filters ≠ 0 → q.shouldDeint = true →
      (va_surface_id (q.get 0) = VA_INVALID_ID ∨ p.hw_pool = false) →
      (filter_out p q hw).res = FOut.failed
      ∧ (filter_out p q hw).job = none) := by
  constructor
  · intro h0
    unfold filter_out
    simp [hout, h0]
  · intro hn hsd hpre
    have hrender : (render p q hw).out = none ∧ (render p q hw).job = none := by
      unfold render
      have h1 : (p.pipe.filters = none
          ∨ va_surface_id (q.get 0) = VA_INVALID_ID ∨ p.hw_pool = false) := by
        rcases hpre with h | h
        · exact Or.inr (Or.inl h)
        · exact Or.inr (Or.inr h)
      simp [h1, render_cleanup]
    unfold filter_out
    simp [hout, hn, hsd, hrender.1, hrender.2]

/-- Filter state as right after one-time setup with the default options
(bob at field rate, workaround on) and an allocated pool, before any
pipeline negotiation. -/
def pC2 : Priv :=
  { basePriv with do_deint := true, buffers := [5], hw_pool := true }

/-- Capability answer requiring one forward and one backward reference. -/
def hwU1 : UpdateOracle := ⟨some ⟨0, 0, 1, 1⟩⟩

/-- C2 fails on the code: after one pipeline update negotiating capacity
1, the first render call fills the forward set with 1 surface, but a
second render call before the next pipeline update appends again without
resetting, leaving 2 stored surfaces against a negotiated capacity of 1
— the set is not rebuilt fresh on every render call. -/
theorem surfaces_accumulate_across_renders :
    ((render ((update_pipeline pC2 hwU1).1) qGood hwOk).priv.pipe.forward.surfaces.length = 1)
    ∧ ((render ((update_pipeline pC2 hwU1).1) qGood hwOk).priv.pipe.forward.max_surfaces = 1)
    ∧ ((render ((render ((update_pipeline pC2 hwU1).1) qGood hwOk).priv) qGood hwOk).priv.pipe.forward.surfaces.length = 2)
    ∧ ((render ((render ((update_pipeline pC2 hwU1).1) qGood hwOk).priv) qGood hwOk).priv.pipe.forward.max_surfaces = 1) := by
  decide

/-- Queue contents used to exercise the collector bounds: frames at
offsets 1 and 2, nothing beyond. -/
def qW : Int → Option Frame :=
  fun o => if o = 1 then some ⟨11⟩ else if o = 2 then some ⟨12⟩ else none

theorem collector_bounds_witness :
    (collect qW 1 4).length ≤ 4 ∧ (collect qW 1 4).length < 4 :=
  ⟨(collector_bounds qW 1 4).1,
   (collector_bounds qW 1 4).2.2.2.1 ⟨2, by decide, by decide⟩⟩

/-- Capability answer with asymmetric reference requirements. -/
def hwU2 : UpdateOracle := ⟨some ⟨0, 0, 2, 1⟩⟩

theorem reversal_refs_witness :
    (update_pipeline pC2 hwU2).2.refs = (Nat.max 2 1, Nat.max 2 1) :=
  reversal_refs_symmetric pC2 hwU2 ⟨0, 0, 2, 1⟩ rfl (by decide) rfl

/-- Filter state with the deinterlacing selector disabled. -/
def pDis : Priv := { basePriv with deint_type := 0 }

/-- Setup oracle on which every call succeeds: the hardware reports the
deinterlacing filter type, supports the bob algorithm, and buffer
creation yields id 7. -/
def hwInitOk : InitOracle :=
  ⟨some 1, some 2, some [VAProcFilterDeinterlacing],
   [VAProcDeinterlacingBob], some 7⟩

/-- State produced by one-time setup from `pDis` (selector 0). -/
def pInit0 : Priv := (initFilter pDis hwInitOk).getD basePriv

theorem nodeint_pushes_zero_witness :
    (update_pipeline pDis ⟨none⟩).2 = ⟨(0, 0), Mode.empty⟩
    ∧ (update_pipeline pInit0 hwU1).2.refs = (0, 0) :=
  ⟨(nodeint_pushes_zero.1 pDis ⟨none⟩ (Or.inl (by decide))).1,
   (nodeint_pushes_zero.2 pDis hwInitOk pInit0 hwU1 (by decide) (by decide)).1⟩

/-- State produced by one-time setup from the default configuration
(bob at field rate). -/
def pAfterInit : Priv := (initFilter basePriv hwInitOk).getD basePriv

theorem mode_bits_witness :
    (update_pipeline pAfterInit hwU1).2.mode.deint = true
    ∧ (update_pipeline pAfterInit hwU1).2.mode.interlacedOnly
        = pAfterInit.interlaced_only :=
  ⟨(mode_bits_on_success basePriv hwInitOk pAfterInit hwU1 ⟨0, 0, 1, 1⟩
      (by decide) rfl (by decide)).1,
   (mode_bits_on_success basePriv hwInitOk pAfterInit hwU1 ⟨0, 0, 1, 1⟩
      (by decide) rfl (by decide)).2.2.2.1⟩

theorem render_balanced_witness :
    createCount 20 (render pActive qGood hwOk).events
      = destroyCount 20 (render pActive qGood hwOk).events :=
  (render_balanced pActive qGood hwOk).2.1 20 (by decide)

/-- Placeholder job for `Option.getD`. -/
def jDefault : RenderJob := ⟨0, 0, [], 0, [], [], 0⟩

/-- The job submitted by a fully successful render from `pActive`. -/
def jR : RenderJob := ((render pActive qGood hwOk).job).getD jDefault

/-- The job submitted through `filter_out` on the same inputs. -/
def jF : RenderJob := ((filter_out pActive qGood hwOk).job).getD jDefault

theorem reversal_swaps_witness :
    jR.forwardRefs = pActive.pipe.forward.surfaces
      ++ collect qGood.get (-1) pActive.pipe.forward.max_surfaces :=
  ((reversal_swaps_directions pActive qGood hwOk jR (by decide)).1
    (by decide)).1

theorem field_flags_witness :
    jF.filterFlags &&& (VA_TOP_FIELD ||| VA_BOTTOM_FIELD) = VA_TOP_FIELD :=
  (filter_out_field_flags pActive qGood hwOk jF (by decide) (by decide)).1
    (by decide)

theorem precondition_witness :
    (filter_out basePriv qGood hwOk).res = FOut.passthrough (qGood.get 0)
    ∧ (filter_out pActive qBad hwOk).res = FOut.failed :=
  ⟨(precondition_behaviour basePriv qGood hwOk (by decide)).1 (by decide),
   ((precondition_behaviour pActive qBad hwOk (by decide)).2 (by decide)
      (by decide) (Or.inl (by decide))).1⟩

end VfVavpp
